import Mathlib

/-!
Verification of the oniongate admission validators
(`src/oniongate/validators.py`) against their natural-language
specification.  Python strings are embedded as `List Char`; the regular
expressions of the source are translated into explicit match predicates
over character lists, including Python's semantics for `$` (which matches
at the end of the string or just before a newline that is the last
character) and for an unescaped `.` (which matches any character except a
newline).  Fallible validators return `Except DomainError _`.
-/

namespace Oniongate

/-- Python strings are modelled as lists of characters. -/
abbrev Str := List Char

/-- Character of the string at index `k` (`s[k]` in Python), if present. -/
def charAt (s : Str) (k : Nat) : Option Char := (s.drop k).head?

/-- Python `str.split(sep)` for a one-character separator:
`"".split(sep) == [""]`, and separators delimit (possibly empty) fields. -/
def splitOn (sep : Char) : Str → List Str
  | [] => [[]]
  | c :: rest =>
    if c = sep then [] :: splitOn sep rest
    else
      match splitOn sep rest with
      | [] => [[c]]
      | h :: t => (c :: h) :: t

/-- Python `str.lower()` (ASCII letters; the inputs of interest are ASCII). -/
def pyLower (s : Str) : Str := s.map Char.toLower

/-- Python `str.upper()` (ASCII letters; the inputs of interest are ASCII). -/
def pyUpper (s : Str) : Str := s.map Char.toUpper

/-- ASCII whitespace stripped by Python `str.strip()` (the further Unicode
space characters recognised by Python are not used by this repository). -/
def pySpace (c : Char) : Bool :=
  c == ' ' || c == '\t' || c == '\n' || c == '\r' || c == '\x0b' || c == '\x0c'

/-- Python `str.strip()`: remove leading and trailing whitespace. -/
def pyStrip (s : Str) : Str :=
  ((s.dropWhile pySpace).reverse.dropWhile pySpace).reverse

/-- Python `str.startswith(p)`. -/
def pyStartsWith (s p : Str) : Bool := s.take p.length == p

/-- Decimal rendering of a natural number, as Python `str(n)` produces for
the non-negative integers used by the configuration. -/
def natStr (n : Nat) : Str := Nat.toDigits 10 n

/-- ASCII decimal digit (`\d` in the source's patterns; the repository's
inputs are ASCII, so Unicode decimals are not modelled). -/
def isAsciiDigit (c : Char) : Bool := '0' ≤ c && c ≤ '9'

/-- Python `re` semantics of `$` (without `re.MULTILINE`): it matches at
position `k` iff `k` is the end of the string or `k` is just before a
newline that is the last character of the string. -/
def dollarAt (s : Str) (k : Nat) : Bool :=
  (k == s.length) || ((k + 1 == s.length) && (charAt s k == some '\n'))

/-- Character class `[A-Z\d\-\_]` of `is_valid_label`'s pattern under
`re.IGNORECASE`; with `hostname=True` the source deletes `\_` from the
class. -/
def labelClass (hostname : Bool) (c : Char) : Bool :=
  ('A' ≤ c && c ≤ 'Z') || ('a' ≤ c && c ≤ 'z') || isAsciiDigit c ||
    c == '-' || (!hostname && c == '_')

/-- One attempted match of the pattern `(?!-)[A-Z\d\-\_]{1,63}(?<!-)$`
(hostname variant without `_`) consuming exactly `k` characters from the
start of `s`: the class matches the first `k` characters, the lookahead
`(?!-)` forbids a leading hyphen, the lookbehind `(?<!-)` forbids a hyphen
at position `k - 1`, and `$` must hold at position `k`. -/
def reLabelMatchAt (hostname : Bool) (s : Str) (k : Nat) : Bool :=
  decide (1 ≤ k) && decide (k ≤ 63) && (s.take k).all (labelClass hostname) &&
    !(s.head? == some '-') && !(charAt s (k - 1) == some '-') && dollarAt s k

/-- Translation of `is_valid_label(label, hostname=False)`: the regex
engine looks for some match length `k` (backtracking over the greedy
`{1,63}` repetition). -/
def is_valid_label (s : Str) (hostname : Bool) : Bool :=
  (List.range (s.length + 1)).any (reLabelMatchAt hostname s)

/-- A digit or a dot (the class `[\d.]`). -/
def digitDot (c : Char) : Bool := isAsciiDigit c || c == '.'

/-- One attempted match of `[\d.]+$` consuming `k` characters from the
start of the string (`re.match` of `is_valid_hostname`). -/
def reIpLikeMatchAt (s : Str) (k : Nat) : Bool :=
  decide (1 ≤ k) && (s.take k).all digitDot && dollarAt s k

/-- Translation of `re.match(r"[\d.]+$", hostname)` being a match. -/
def ipLikePat (s : Str) : Bool :=
  (List.range (s.length + 1)).any (reIpLikeMatchAt s)

/-- Translation of `is_valid_hostname`: reject strings longer than 255
characters, reject all-digits-and-dots strings, otherwise require every
dot-separated field to be a valid hostname label. -/
def is_valid_hostname (s : Str) : Bool :=
  if 255 < s.length then false
  else if ipLikePat s then false
  else (splitOn '.' s).all (fun x => is_valid_label x true)

/-- Translation of `is_onion_address`'s pattern `^[a-z0-9]{16}.onion$`
(note: the dot before `onion` is unescaped in the source, so it matches
any character except a newline): positions `0..15` are lowercase
alphanumerics, position `16` is any non-newline character, positions
`17..21` are the literal `onion`, and `$` holds at position `22`. -/
def onionChar (c : Char) : Bool := ('a' ≤ c && c ≤ 'z') || isAsciiDigit c

/-- The character at index `k` exists and is not a newline (what the
unescaped `.` of a Python pattern requires of the character it consumes). -/
def notNewlineAt (s : Str) (k : Nat) : Bool :=
  match charAt s k with
  | some c => !(c == '\n')
  | none => false

/-- Translation of `is_onion_address(onion_address)`. -/
def is_onion_address (s : Str) : Bool :=
  (s.take 16).all onionChar && notNewlineAt s 16 &&
    ((s.drop 17).take 5 == "onion".data) &&
    dollarAt s 22

/-- Configuration surface read by the validators.  The source reads these
keys from Flask's ambient `current_app.config`; following the spec's
dependency-injection note, the keys are gathered in an explicit record
passed to each validator: `MIN_SUBDOMAIN_LENGTH`, `DOMAIN_BLACKLIST`,
`SUBDOMAIN_HOST`, `FQDN_REGISTRATION_CLOSED` (read with `.get`, so a
missing key behaves as `false`), `ALLOWED_DNS_RECORD_TYPES`. -/
structure PolicyConfig where
  minSubdomainLength : Nat
  domainBlacklist : List Str
  subdomainHost : Str
  fqdnRegistrationClosed : Bool
  allowedDnsRecordTypes : List Str

/-- The spec's error taxonomy: every `raise ValueError` of the source is
`invalidInput`, except the raise under `FQDN_REGISTRATION_CLOSED`, which
the spec classifies as `registrationClosed`. -/
inductive DomainError where
  | invalidInput (msg : Str)
  | registrationClosed (msg : Str)
deriving DecidableEq

/-- Result of `domain_name`: the dict `{'label': ..., 'zone': ...}`. -/
structure DomainClassification where
  label : Option Str
  zone : Str
deriving DecidableEq

/-- Strip one trailing dot: `if domain_name_str[-1] == ".":
domain_name_str = domain_name_str[:-1]`. -/
def stripTrailingDot (s : Str) : Str :=
  if s.getLast? = some '.' then s.dropLast else s

/-- The `if is_subdomain:` body of `domain_name`, applied to the
(possibly dot-stripped) string `t`. -/
def subdomainBranch (t : Str) (cfg : PolicyConfig) :
    Except DomainError DomainClassification :=
  if !is_valid_hostname t then
    .error (.invalidInput (t ++ " is not a valid sub-domain name.".data))
  else if t.length < cfg.minSubdomainLength then
    .error (.invalidInput ("The subdomain must be at least ".data ++
      natStr cfg.minSubdomainLength ++ " characters long.".data))
  else if t ∈ cfg.domainBlacklist then
    .error (.invalidInput "This subdomain is not allowed".data)
  else
    .ok { label := some (pyLower t), zone := pyLower cfg.subdomainHost }

/-- The `else:` (root-domain) body of `domain_name`, applied to the
(possibly dot-stripped) string `t`. -/
def rootDomainBranch (t : Str) (cfg : PolicyConfig) :
    Except DomainError DomainClassification :=
  if !is_valid_hostname t || !decide ('.' ∈ t) then
    .error (.invalidInput (t ++ " is not a valid domain name".data))
  else if pyStartsWith t "www.".data then
    .error (.invalidInput
      "The domain name should not include the www. label".data)
  else if cfg.fqdnRegistrationClosed then
    .error (.registrationClosed
      ("It is not possible to register a full domain at the present time. ".data ++
       "Please choose a sub-domain or contact the administrators".data))
  else if t ∈ cfg.domainBlacklist then
    .error (.invalidInput "The domain is not allowed".data)
  else
    .ok { label := none, zone := pyLower t }

/-- Translation of `domain_name(domain_name_str)`, with the configuration
passed explicitly: reject the empty string, classify by the presence of a
dot in the original string, strip one trailing dot, then run the branch
taken (each branch checks `is_valid_hostname` of the stripped string). -/
def domain_name (s : Str) (cfg : PolicyConfig) :
    Except DomainError DomainClassification :=
  if s = [] then .error (.invalidInput "You must specify a domain name".data)
  else if !decide ('.' ∈ s) then subdomainBranch (stripTrailingDot s) cfg
  else rootDomainBranch (stripTrailingDot s) cfg

/-- Modelled from Python's standard `ipaddress` library (external to the
repository): one octet of a dotted-quad IPv4 address — ASCII digits only,
at most three of them, no leading zero, value at most 255. -/
def parseOctet (t : Str) : Option Nat :=
  if t = [] then none
  else if !(t.all isAsciiDigit) then none
  else if 3 < t.length then none
  else if t.head? = some '0' ∧ t.length ≠ 1 then none
  else
    let n := t.foldl (fun acc c => acc * 10 + (c.toNat - '0'.toNat)) 0
    if n ≤ 255 then some n else none

/-- Modelled from Python's `ipaddress.IPv4Address`: exactly four
dot-separated octets; the value is the 32-bit big-endian integer. -/
def parseIPv4 (s : Str) : Option Nat :=
  match splitOn '.' s with
  | [a, b, c, d] =>
    match parseOctet a, parseOctet b, parseOctet c, parseOctet d with
    | some a', some b', some c', some d' =>
      some (((a' * 256 + b') * 256 + c') * 256 + d')
    | _, _, _, _ => none
  | _ => none

/-- ASCII hexadecimal digit. -/
def isHexDigit (c : Char) : Bool :=
  isAsciiDigit c || ('a' ≤ c && c ≤ 'f') || ('A' ≤ c && c ≤ 'F')

/-- Value of an ASCII hexadecimal digit. -/
def hexVal (c : Char) : Nat :=
  if isAsciiDigit c then c.toNat - '0'.toNat
  else if 'a' ≤ c && c ≤ 'f' then c.toNat - 'a'.toNat + 10
  else c.toNat - 'A'.toNat + 10

/-- Modelled from Python's `ipaddress`: one hextet of an IPv6 address —
hex digits only, at most four of them. -/
def parseHextet (t : Str) : Option Nat :=
  if t = [] then none
  else if !(t.all isHexDigit) then none
  else if 4 < t.length then none
  else some (t.foldl (fun acc c => acc * 16 + hexVal c) 0)

/-- Parse each part as a hextet, failing if any part fails. -/
def parseHextets : List Str → Option (List Nat)
  | [] => some []
  | t :: ts =>
    match parseHextet t, parseHextets ts with
    | some v, some vs => some (v :: vs)
    | _, _ => none

/-- Lowercase hexadecimal rendering (`'%x' % n` in Python). -/
def natHexStr (n : Nat) : Str := Nat.toDigits 16 n

/-- Accumulate hextet values big-endian. -/
def foldHextets (init : Nat) (vs : List Nat) : Nat :=
  vs.foldl (fun a v => a * 65536 + v) init

/-- Modelled from Python's `ipaddress.IPv6Address._ip_int_from_string`:
split on `:`; at least three parts; an embedded dotted-quad IPv4 suffix is
replaced by its two hextets; at most nine parts; at most one empty part
strictly inside (the `::` compression), a leading or trailing lone `:` is
rejected; the compression must stand for at least one zero group.  (The
scope-id suffix `%zone` of newer Python versions is not modelled.) -/
def parseIPv6 (s : Str) : Option Nat :=
  let parts0 := splitOn ':' s
  if parts0.length < 3 then none
  else
    let withV4 : Option (List Str) :=
      match parts0.getLast? with
      | none => none
      | some last =>
        if '.' ∈ last then
          match parseIPv4 last with
          | none => none
          | some v =>
            some (parts0.dropLast ++ [natHexStr (v / 65536), natHexStr (v % 65536)])
        else some parts0
    match withV4 with
    | none => none
    | some parts =>
      if 9 < parts.length then none
      else
        let middle := (parts.drop 1).dropLast
        let emptyCount := middle.countP (fun p => p == [])
        if 2 ≤ emptyCount then none
        else if emptyCount = 1 then
          let skip := middle.findIdx (fun p => p == []) + 1
          let hi1 := skip
          let lo1 := parts.length - skip - 1
          if parts.head? = some [] ∧ hi1 ≠ 1 then none
          else if parts.getLast? = some [] ∧ lo1 ≠ 1 then none
          else
            let hi := if parts.head? = some [] then hi1 - 1 else hi1
            let lo := if parts.getLast? = some [] then lo1 - 1 else lo1
            if 8 - (hi + lo) < 1 then none
            else
              match parseHextets (parts.take hi),
                    parseHextets (parts.drop (parts.length - lo)) with
              | some hiVals, some loVals =>
                some (foldHextets
                  (foldHextets 0 hiVals * 65536 ^ (8 - (hi + lo))) loVals)
              | _, _ => none
        else
          if parts.length ≠ 8 then none
          else if parts.head? = some [] then none
          else if parts.getLast? = some [] then none
          else
            match parseHextets parts with
            | some vs => some (foldHextets 0 vs)
            | none => none

/-- A parsed IP address: the 32-bit or 128-bit integer value. -/
inductive IpAddr where
  | v4 (n : Nat)
  | v6 (n : Nat)
deriving DecidableEq

/-- Modelled from Python's `ipaddress.ip_address(address)` for string
input: try IPv4 first, then IPv6. -/
def py_ip_address (s : Str) : Option IpAddr :=
  match parseIPv4 s with
  | some v => some (.v4 v)
  | none =>
    match parseIPv6 s with
    | some v => some (.v6 v)
    | none => none

/-- Membership of `n` in the network with the given base address and
prefix length, for addresses of `width` bits. -/
def sameNet (width n base plen : Nat) : Bool :=
  n / 2 ^ (width - plen) == base / 2 ^ (width - plen)

/-- The 32-bit value of a dotted quad. -/
def ipv4Num (a b c d : Nat) : Nat := ((a * 256 + b) * 256 + c) * 256 + d

/-- Modelled from Python's `IPv4Address.is_private`: membership in any of
the standard private/reserved IPv4 networks. -/
def ipv4IsPrivate (n : Nat) : Bool :=
  sameNet 32 n (ipv4Num 0 0 0 0) 8 || sameNet 32 n (ipv4Num 10 0 0 0) 8 ||
  sameNet 32 n (ipv4Num 127 0 0 0) 8 || sameNet 32 n (ipv4Num 169 254 0 0) 16 ||
  sameNet 32 n (ipv4Num 172 16 0 0) 12 || sameNet 32 n (ipv4Num 192 0 0 0) 29 ||
  sameNet 32 n (ipv4Num 192 0 0 170) 31 || sameNet 32 n (ipv4Num 192 0 2 0) 24 ||
  sameNet 32 n (ipv4Num 192 168 0 0) 16 || sameNet 32 n (ipv4Num 198 18 0 0) 15 ||
  sameNet 32 n (ipv4Num 198 51 100 0) 24 || sameNet 32 n (ipv4Num 203 0 113 0) 24 ||
  sameNet 32 n (ipv4Num 240 0 0 0) 4 || sameNet 32 n (ipv4Num 255 255 255 255) 32

/-- Modelled from Python's `IPv6Address.is_private`: membership in any of
the standard private/reserved IPv6 networks. -/
def ipv6IsPrivate (n : Nat) : Bool :=
  sameNet 128 n 1 128 || sameNet 128 n 0 128 ||
  sameNet 128 n (65535 * 2 ^ 32) 96 || sameNet 128 n (256 * 2 ^ 112) 64 ||
  sameNet 128 n (8193 * 2 ^ 112) 23 ||
  sameNet 128 n (8193 * 2 ^ 112 + 3512 * 2 ^ 96) 32 ||
  sameNet 128 n (64512 * 2 ^ 112) 7 || sameNet 128 n (65152 * 2 ^ 112) 10

/-- Python `ip.is_private` for either family. -/
def is_private : IpAddr → Bool
  | .v4 n => ipv4IsPrivate n
  | .v6 n => ipv6IsPrivate n

/-- Translation of the validator `ip_address(ip_address_str)`: the
`ValueError` raised by an unparsable string propagates (spec kind
`InvalidInput`; the `repr`-quoting of Python's message is approximated
with plain quotes), a private address is rejected, and otherwise the
parsed address is returned. -/
def ip_address (s : Str) : Except DomainError IpAddr :=
  match py_ip_address s with
  | none =>
    .error (.invalidInput ('\'' :: s ++ '\'' ::
      " does not appear to be an IPv4 or IPv6 address".data))
  | some ip =>
    if is_private ip then
      .error (.invalidInput "Only public IP addresses are valid".data)
    else .ok ip

/-- Join with `", "` (Python `", ".join(...)`). -/
def joinComma : List Str → Str
  | [] => []
  | [x] => x
  | x :: xs => x ++ ", ".data ++ joinComma xs

/-- Translation of `allowed_dns_record_type(record_type)`, with the
configuration passed explicitly. -/
def allowed_dns_record_type (rt : Str) (cfg : PolicyConfig) :
    Except DomainError Str :=
  if pyUpper (pyStrip rt) ∈ cfg.allowedDnsRecordTypes then
    .ok (pyUpper (pyStrip rt))
  else
    .error (.invalidInput (pyUpper (pyStrip rt) ++
      " is not an allowed DNS record type. Only types ".data ++
      joinComma cfg.allowedDnsRecordTypes ++ " are allowed".data))

/-! Spec-side definitions, written from the specification's words, to be
compared with the translations of the source above. -/

/-- Spec wording for a valid label: 1 to 63 characters, every character
from `[A-Za-z0-9_-]` (underscore excluded in hostname mode), neither
starting nor ending with a hyphen, case-insensitively. -/
def specLabelOk (s : Str) (hostname : Bool) : Bool :=
  decide (1 ≤ s.length) && decide (s.length ≤ 63) && s.all (labelClass hostname) &&
    !(s.head? == some '-') && !(s.getLast? == some '-')

/-- Spec wording for the IP-like rejection of `is_valid_hostname`: the
whole string consists only of digits and dots. -/
def specIpLike (s : Str) : Bool := decide (s ≠ []) && s.all digitDot

/-- Spec wording for `is_valid_hostname`: false beyond 255 characters,
false for an all-digits-and-dots string, otherwise every dot-separated
segment passes `is_valid_label` in hostname mode. -/
def specHostnameOk (s : Str) : Bool :=
  if 255 < s.length then false
  else if specIpLike s then false
  else (splitOn '.' s).all (fun x => is_valid_label x true)

/-- What `is_valid_hostname`'s IP-like test actually matches: an
all-digits-and-dots string, up to an optional single trailing newline. -/
def pyIpLike (s : Str) : Bool :=
  specIpLike s || (s.getLast? == some '\n' && specIpLike s.dropLast)

/-- Spec wording for an onion address: exactly 16 lowercase alphanumeric
characters followed by the literal `.onion`, full-string anchored. -/
def specOnionOk (s : Str) : Bool :=
  s.length == 22 && (s.take 16).all onionChar && (s.drop 16 == ".onion".data)

/-- What the source's onion pattern actually matches, up to the optional
trailing newline admitted by `$`: 16 lowercase alphanumerics, then any
single non-newline character, then the literal `onion`. -/
def onionLooseOk (t : Str) : Bool :=
  t.length == 22 && (t.take 16).all onionChar && notNewlineAt t 16 &&
    (t.drop 17 == "onion".data)

/-- The string `small` occurs contiguously inside `big` (used to state
that an error message quotes a configured value). -/
def containsSub (big small : Str) : Prop := ∃ lft rgt, big = lft ++ small ++ rgt

/-- A concrete policy used by counterexamples and witnesses: minimum
subdomain length 3, blacklist `{www, mail}`, subdomain host
`Example.COM`, FQDN registration open, record types `{A, AAAA, CNAME}`. -/
def cfgOpen : PolicyConfig :=
  { minSubdomainLength := 3
    domainBlacklist := ["www".data, "mail".data]
    subdomainHost := "Example.COM".data
    fqdnRegistrationClosed := false
    allowedDnsRecordTypes := ["A".data, "AAAA".data, "CNAME".data] }

/-- The same policy with FQDN registration closed. -/
def cfgClosed : PolicyConfig :=
  { cfgOpen with fqdnRegistrationClosed := true }

/-! Helper lemmas about the embedding. -/

theorem charAt_eq_getElem? (s : Str) (k : Nat) : charAt s k = s[k]? := by
  simp [charAt]

theorem getLast?_eq_charAt (s : Str) : s.getLast? = charAt s (s.length - 1) := by
  rw [charAt_eq_getElem?, List.getLast?_eq_getElem?]

theorem dollarAt_iff {s : Str} {k : Nat} : dollarAt s k = true ↔
    k = s.length ∨ (k + 1 = s.length ∧ charAt s k = some '\n') := by
  simp [dollarAt]

theorem is_valid_label_eq (h : Bool) (s : Str) :
    is_valid_label s h =
      (specLabelOk s h || (s.getLast? == some '\n' && specLabelOk s.dropLast h)) := by
  rw [Bool.eq_iff_iff]
  simp only [is_valid_label, List.any_eq_true, List.mem_range, reLabelMatchAt,
    Bool.and_eq_true, decide_eq_true_eq, Bool.not_eq_true', beq_eq_false_iff_ne,
    ne_eq, dollarAt_iff, Bool.or_eq_true, beq_iff_eq, specLabelOk]
  constructor
  · rintro ⟨k, hk, ⟨⟨⟨⟨⟨h1, h63⟩, hall⟩, hhead⟩, hlast⟩, hdollar | ⟨hk1, hnl⟩⟩⟩
    · subst hdollar
      rw [List.take_length] at hall
      exact Or.inl ⟨⟨⟨⟨h1, h63⟩, hall⟩, hhead⟩,
        by rw [getLast?_eq_charAt]; exact hlast⟩
    · have hklt : k < s.length := by omega
      have hdp : s.dropLast = s.take k := by
        rw [List.dropLast_eq_take]; congr 1; omega
      refine Or.inr ⟨?_, ⟨⟨⟨?_, ?_⟩, ?_⟩, ?_⟩, ?_⟩
      · rw [getLast?_eq_charAt]
        have : s.length - 1 = k := by omega
        rw [this]; exact hnl
      · rw [hdp, List.length_take_of_le hklt.le]; exact h1
      · rw [hdp, List.length_take_of_le hklt.le]; exact h63
      · rw [hdp]; exact hall
      · rw [hdp, List.head?_take, if_neg (by omega)]; exact hhead
      · rw [hdp, List.getLast?_eq_getElem?, List.length_take_of_le hklt.le,
          List.getElem?_take, if_pos (by omega), ← charAt_eq_getElem?]
        exact hlast
  · rintro (⟨⟨⟨⟨h1, h63⟩, hall⟩, hhead⟩, hlast⟩ | ⟨hnl, ⟨⟨⟨h1, h63⟩, hall⟩, hhead⟩, hlast⟩)
    · refine ⟨s.length, by omega, ⟨⟨⟨⟨h1, h63⟩, ?_⟩, hhead⟩, ?_⟩, Or.inl rfl⟩
      · rw [List.take_length]; exact hall
      · rw [← getLast?_eq_charAt]; exact hlast
    · have hne : s ≠ [] := by
        intro he; rw [he] at hnl; exact absurd hnl (by simp)
      have hlen1 : 1 ≤ s.length := by
        cases s with
        | nil => exact absurd rfl hne
        | cons c t => simp
      have hdl : s.dropLast.length = s.length - 1 := List.length_dropLast s
      rw [hdl] at h1 h63
      have hklt : s.length - 1 < s.length := by omega
      have hdp : s.dropLast = s.take (s.length - 1) := List.dropLast_eq_take s
      refine ⟨s.length - 1, by omega, ⟨⟨⟨⟨h1, h63⟩, ?_⟩, ?_⟩, ?_⟩,
        Or.inr ⟨by omega, ?_⟩⟩
      · rw [hdp] at hall; exact hall
      · rw [hdp, List.head?_take, if_neg (by omega)] at hhead; exact hhead
      · rw [hdp, List.getLast?_eq_getElem?, List.length_take_of_le hklt.le,
          List.getElem?_take, if_pos (by omega), ← charAt_eq_getElem?] at hlast
        exact hlast
      · rw [← getLast?_eq_charAt]; exact hnl

theorem ipLikePat_eq (s : Str) : ipLikePat s = pyIpLike s := by
  rw [Bool.eq_iff_iff]
  simp only [ipLikePat, List.any_eq_true, List.mem_range, reIpLikeMatchAt,
    Bool.and_eq_true, decide_eq_true_eq, dollarAt_iff, pyIpLike, specIpLike,
    Bool.or_eq_true, beq_iff_eq, ne_eq]
  constructor
  · rintro ⟨k, hk, ⟨⟨h1, hall⟩, hdollar | ⟨hk1, hnl⟩⟩⟩
    · subst hdollar
      rw [List.take_length] at hall
      refine Or.inl ⟨?_, hall⟩
      intro he; rw [he] at h1; simp at h1
    · have hdp : s.dropLast = s.take k := by
        rw [List.dropLast_eq_take]; congr 1; omega
      refine Or.inr ⟨?_, ?_, ?_⟩
      · rw [getLast?_eq_charAt]
        have : s.length - 1 = k := by omega
        rw [this]; exact hnl
      · rw [hdp]
        intro he
        have := congrArg List.length he
        rw [List.length_take_of_le (by omega)] at this
        simp at this; omega
      · rw [hdp]; exact hall
  · rintro (⟨hne, hall⟩ | ⟨hnl, hne, hall⟩)
    · refine ⟨s.length, by omega, ⟨⟨?_, ?_⟩, Or.inl rfl⟩⟩
      · cases s with
        | nil => exact absurd rfl hne
        | cons c t => simp
      · rw [List.take_length]; exact hall
    · have hs : s ≠ [] := by
        intro he; rw [he] at hnl; exact absurd hnl (by simp)
      have hdl : s.dropLast.length = s.length - 1 := List.length_dropLast s
      have hd1 : 1 ≤ s.dropLast.length := by
        cases hh : s.dropLast with
        | nil => exact absurd hh hne
        | cons c t => simp
      have hlen2 : 2 ≤ s.length := by omega
      have hdp : s.dropLast = s.take (s.length - 1) := List.dropLast_eq_take s
      refine ⟨s.length - 1, by omega, ⟨⟨by omega, ?_⟩, Or.inr ⟨by omega, ?_⟩⟩⟩
      · rw [hdp] at hall; exact hall
      · rw [← getLast?_eq_charAt]; exact hnl

theorem notNewlineAt_take {s : Str} {m k : Nat} (h : k < m) :
    notNewlineAt (s.take m) k = notNewlineAt s k := by
  rw [notNewlineAt, notNewlineAt, charAt_eq_getElem?, charAt_eq_getElem?,
    List.getElem?_take, if_pos h]

theorem is_onion_address_eq (s : Str) :
    is_onion_address s =
      (onionLooseOk s || (s.getLast? == some '\n' && onionLooseOk s.dropLast)) := by
  by_cases h22 : s.length = 22
  · have hdrop : (s.drop 17).take 5 = s.drop 17 :=
      List.take_of_length_le (by rw [List.length_drop]; omega)
    have hloose : onionLooseOk s.dropLast = false := by
      rw [onionLooseOk]
      have h21 : s.dropLast.length = 21 := by rw [List.length_dropLast]; omega
      rw [h21]
      simp
    rw [is_onion_address, onionLooseOk, hdrop, hloose, h22]
    simp [dollarAt, h22, Bool.and_comm, Bool.and_left_comm, Bool.and_assoc]
  · by_cases h23 : s.length = 23
    · have hdollar : dollarAt s 22 = (charAt s 22 == some '\n') := by
        rw [dollarAt, h23]
        simp
      have hloose : onionLooseOk s = false := by
        rw [onionLooseOk]
        have h : (s.length == 22) = false := by simp [h23]
        rw [h]; simp
      have hdp : s.dropLast = s.take 22 := by
        rw [List.dropLast_eq_take]; congr 1; omega
      have hlen : s.dropLast.length = 22 := by rw [List.length_dropLast]; omega
      have htake : s.dropLast.take 16 = s.take 16 := by
        rw [hdp, List.take_take]
        norm_num
      have hnn : notNewlineAt s.dropLast 16 = notNewlineAt s 16 := by
        rw [hdp, notNewlineAt_take (by omega)]
      have hdrop : s.dropLast.drop 17 = (s.drop 17).take 5 := by
        rw [hdp, List.drop_take]
      have hgl : s.getLast? = charAt s 22 := by
        rw [getLast?_eq_charAt, h23]
      have hlooseD : onionLooseOk s.dropLast =
          ((s.take 16).all onionChar && (notNewlineAt s 16 &&
            ((s.drop 17).take 5 == "onion".data))) := by
        rw [onionLooseOk, htake, hnn, hdrop, hlen]
        simp [Bool.and_assoc]
      rw [is_onion_address, hdollar, hgl, hloose, hlooseD]
      simp [Bool.and_comm, Bool.and_left_comm, Bool.and_assoc]
    · have hdollar : dollarAt s 22 = false := by
        rw [dollarAt]
        have h1 : (22 == s.length) = false := by simp; omega
        have h2 : (22 + 1 == s.length) = false := by simp; omega
        rw [h1, h2]; simp
      have hl1 : (s.length == 22) = false := by simp; omega
      have hl2 : (s.dropLast.length == 22) = false := by
        rw [List.length_dropLast]
        by_cases h0 : s.length = 0
        · rw [h0]; simp
        · simp; omega
      rw [is_onion_address, hdollar, onionLooseOk, onionLooseOk, hl1, hl2]
      simp

theorem splitOn_ne_nil (sep : Char) (s : Str) : splitOn sep s ≠ [] := by
  cases s with
  | nil => simp [splitOn]
  | cons c rest =>
    by_cases hc : c = sep
    · simp [splitOn, hc]
    · cases h : splitOn sep rest with
      | nil => simp [splitOn, hc, h]
      | cons x xs => simp [splitOn, hc, h]

theorem splitOn_concat_sep (sep : Char) (u : Str) :
    splitOn sep (u ++ [sep]) = splitOn sep u ++ [[]] := by
  induction u with
  | nil => simp [splitOn]
  | cons c u ih =>
    by_cases hc : c = sep
    · simp only [List.cons_append, splitOn, if_pos hc, List.append_eq, ih]
    · cases h : splitOn sep u with
      | nil => exact absurd h (splitOn_ne_nil sep u)
      | cons x xs =>
        simp only [List.cons_append, splitOn, if_neg hc, List.append_eq, ih, h]

theorem is_valid_label_nil (h : Bool) : is_valid_label [] h = false := by
  cases h <;> decide

theorem hostname_ne_nil {s : Str} (hv : is_valid_hostname s = true) : s ≠ [] := by
  intro he
  rw [he] at hv
  exact absurd hv (by decide)

theorem hostname_no_trailing_dot {s : Str} (hv : is_valid_hostname s = true) :
    s.getLast? ≠ some '.' := by
  intro hlast
  obtain ⟨u, rfl⟩ := List.getLast?_eq_some_iff.mp hlast
  rw [is_valid_hostname] at hv
  split at hv
  · exact absurd hv (by simp)
  · split at hv
    · exact absurd hv (by simp)
    · rw [splitOn_concat_sep, List.all_append] at hv
      have := (Bool.and_eq_true ..).mp hv
      simp only [List.all_cons, List.all_nil, Bool.and_true] at this
      exact absurd this.2 (by rw [is_valid_label_nil]; simp)

theorem stripTrailingDot_of_not_mem {s : Str} (h : '.' ∉ s) :
    stripTrailingDot s = s := by
  rw [stripTrailingDot, if_neg]
  intro hl
  exact h (List.mem_of_getLast?_eq_some hl)

theorem stripTrailingDot_of_valid {s : Str} (hv : is_valid_hostname s = true) :
    stripTrailingDot s = s := by
  rw [stripTrailingDot, if_neg (hostname_no_trailing_dot hv)]

theorem stripTrailingDot_concat (s : Str) :
    stripTrailingDot (s ++ ['.']) = s := by
  rw [stripTrailingDot, if_pos (List.getLast?_concat s), List.dropLast_concat]

/-! Claim theorems. -/

/-- C10: for every non-empty dot-free string `s`, submitting `s` with a
single trailing dot always fails with `InvalidInput`: the trailing dot
routes the input to the root-domain branch, the dot is stripped, and the
stripped string fails the must-contain-a-dot check of that branch. -/
theorem C10_trailing_dot_on_bare_label (s : Str) (cfg : PolicyConfig)
    (hne : s ≠ []) (hnd : '.' ∉ s) :
    domain_name (s ++ ['.']) cfg =
      .error (.invalidInput (s ++ " is not a valid domain name".data)) := by
  have h1 : s ++ ['.'] ≠ [] := by
    intro he
    have := congrArg List.length he
    simp at this
  have h2 : '.' ∈ s ++ ['.'] := List.mem_append_right s (by simp)
  rw [domain_name, if_neg h1, decide_eq_true h2]
  rw [show (!true) = false from rfl, if_neg (by simp), stripTrailingDot_concat]
  rw [rootDomainBranch, decide_eq_false hnd]
  rw [show ∀ b : Bool, (!b || !false) = true from by intro b; simp]
  rw [if_pos rfl]

/-- C10 witness: `"foo."` is rejected with the root-branch invalid-domain
message even though `"foo"` alone is accepted as a subdomain. -/
theorem C10_witness :
    domain_name ("foo.".data) cfgOpen =
      .error (.invalidInput ("foo is not a valid domain name".data)) ∧
    domain_name "foo".data cfgOpen =
      .ok { label := some "foo".data, zone := "example.com".data } :=
  ⟨C10_trailing_dot_on_bare_label "foo".data cfgOpen (by decide) (by decide), rfl⟩

/-- C1 counterexample: with `www` blacklisted, the uppercase submission
`WWW` — whose lowercase form is in the blacklist — is accepted, because
the membership test uses the raw string, not its lowercase form. -/
theorem C1_counterexample :
    pyLower "WWW".data ∈ cfgOpen.domainBlacklist ∧
    domain_name "WWW".data cfgOpen =
      .ok { label := some "www".data, zone := "example.com".data } :=
  ⟨by decide, rfl⟩

/-- C1 (amended): if the submitted name, after stripping one trailing dot,
is a member of `domainBlacklist` — by exact, case-sensitive comparison —
then `domain_name` always rejects it, and the rejection is `InvalidInput`
whenever FQDN registration is open (with registration closed, the root
branch raises `RegistrationClosed` before reaching its blacklist test). -/
theorem C1_blacklist_rejects (s : Str) (cfg : PolicyConfig)
    (hb : stripTrailingDot s ∈ cfg.domainBlacklist) :
    ∃ e, domain_name s cfg = .error e ∧
      (cfg.fqdnRegistrationClosed = false → ∃ m, e = .invalidInput m) := by
  rw [domain_name]
  by_cases hnil : s = []
  · rw [if_pos hnil]
    exact ⟨_, rfl, fun _ => ⟨_, rfl⟩⟩
  · rw [if_neg hnil]
    by_cases hd : '.' ∈ s
    · rw [decide_eq_true hd, show (!true) = false from rfl, if_neg (by simp)]
      rw [rootDomainBranch]
      by_cases hv : (!is_valid_hostname (stripTrailingDot s) ||
          !decide ('.' ∈ stripTrailingDot s)) = true
      · rw [if_pos hv]
        exact ⟨_, rfl, fun _ => ⟨_, rfl⟩⟩
      · rw [if_neg hv]
        by_cases hw : pyStartsWith (stripTrailingDot s) "www.".data = true
        · rw [if_pos hw]
          exact ⟨_, rfl, fun _ => ⟨_, rfl⟩⟩
        · rw [if_neg hw]
          by_cases hc : cfg.fqdnRegistrationClosed = true
          · rw [if_pos hc]
            exact ⟨_, rfl, fun hf => absurd hc (by rw [hf]; simp)⟩
          · rw [if_neg hc, if_pos hb]
            exact ⟨_, rfl, fun _ => ⟨_, rfl⟩⟩
    · rw [decide_eq_false hd, show (!false) = true from rfl, if_pos rfl]
      rw [subdomainBranch]
      by_cases hv : (!is_valid_hostname (stripTrailingDot s)) = true
      · rw [if_pos hv]
        exact ⟨_, rfl, fun _ => ⟨_, rfl⟩⟩
      · rw [if_neg hv]
        by_cases hl : (stripTrailingDot s).length < cfg.minSubdomainLength
        · rw [if_pos hl]
          exact ⟨_, rfl, fun _ => ⟨_, rfl⟩⟩
        · rw [if_neg hl, if_pos hb]
          exact ⟨_, rfl, fun _ => ⟨_, rfl⟩⟩

/-- C1 witness: the blacklisted lowercase submission `www` is rejected
with `InvalidInput` under the open policy. -/
theorem C1_witness :
    ∃ e, domain_name "www".data cfgOpen = .error e ∧
      (cfgOpen.fqdnRegistrationClosed = false → ∃ m, e = .invalidInput m) :=
  C1_blacklist_rejects "www".data cfgOpen (by decide)

/-- C2 counterexample: a successful root-domain submission with a trailing
dot has a zone that is not the lowercased submitted string (the trailing
dot is stripped first). -/
theorem C2_counterexample :
    domain_name "example.com.".data cfgOpen =
      .ok { label := none, zone := "example.com".data } ∧
    "example.com".data ≠ pyLower "example.com.".data :=
  ⟨rfl, by decide⟩

/-- C2 (amended): a successful result has exactly one of two shapes,
decided by whether the original string contains a dot — no dot: label is
the lowercased submission and zone the lowercased configured subdomain
host (never the root shape); with a dot: label is null and zone is the
lowercased submission after stripping one trailing dot (never the
subdomain shape). -/
theorem C2_shapes (s : Str) (cfg : PolicyConfig) (r : DomainClassification)
    (hok : domain_name s cfg = .ok r) :
    ('.' ∉ s → r.label = some (pyLower s) ∧
      r.zone = pyLower cfg.subdomainHost) ∧
    ('.' ∈ s → r.label = none ∧
      r.zone = pyLower (stripTrailingDot s)) := by
  rw [domain_name] at hok
  by_cases hnil : s = []
  · rw [if_pos hnil] at hok
    exact Except.noConfusion hok
  · rw [if_neg hnil] at hok
    by_cases hd : '.' ∈ s
    · rw [decide_eq_true hd, show (!true) = false from rfl,
        if_neg (by simp)] at hok
      refine ⟨fun hnd => absurd hd hnd, fun _ => ?_⟩
      rw [rootDomainBranch] at hok
      split at hok
      · exact Except.noConfusion hok
      · split at hok
        · exact Except.noConfusion hok
        · split at hok
          · exact Except.noConfusion hok
          · split at hok
            · exact Except.noConfusion hok
            · cases hok
              exact ⟨rfl, rfl⟩
    · rw [decide_eq_false hd, show (!false) = true from rfl,
        if_pos rfl, stripTrailingDot_of_not_mem hd] at hok
      refine ⟨fun _ => ?_, fun hmem => absurd hmem hd⟩
      rw [subdomainBranch] at hok
      split at hok
      · exact Except.noConfusion hok
      · split at hok
        · exact Except.noConfusion hok
        · split at hok
          · exact Except.noConfusion hok
          · cases hok
            exact ⟨rfl, rfl⟩

/-- C2 witness: the subdomain shape for `myapp` and the root shape for
`foo.org` under the open policy. -/
theorem C2_witness :
    (({ label := some "myapp".data, zone := "example.com".data } :
        DomainClassification).label = some (pyLower "myapp".data) ∧
      ({ label := some "myapp".data, zone := "example.com".data } :
        DomainClassification).zone = pyLower cfgOpen.subdomainHost) ∧
    (({ label := none, zone := "foo.org".data } :
        DomainClassification).label = none ∧
      ({ label := none, zone := "foo.org".data } :
        DomainClassification).zone =
        pyLower (stripTrailingDot "foo.org".data)) :=
  ⟨(C2_shapes "myapp".data cfgOpen _ rfl).1 (by decide),
   (C2_shapes "foo.org".data cfgOpen _ rfl).2 (by decide)⟩

/-- C3: a syntactically valid root-domain submission (a valid hostname
containing a dot, not starting with `www.`) fails with
`RegistrationClosed` whenever `fqdnRegistrationClosed` is true, succeeds
when it is false and the submission is not blacklisted, and
`RegistrationClosed` is a failure kind distinct from `InvalidInput`. -/
theorem C3_fqdn_registration (s : Str) (cfg : PolicyConfig)
    (hv : is_valid_hostname s = true) (hd : '.' ∈ s)
    (hw : pyStartsWith s "www.".data = false) :
    (cfg.fqdnRegistrationClosed = true →
      ∃ m, domain_name s cfg = .error (.registrationClosed m)) ∧
    (cfg.fqdnRegistrationClosed = false → s ∉ cfg.domainBlacklist →
      ∃ r, domain_name s cfg = .ok r) ∧
    (∀ m m', DomainError.registrationClosed m ≠ DomainError.invalidInput m') := by
  have hne : s ≠ [] := hostname_ne_nil hv
  have hst : stripTrailingDot s = s := stripTrailingDot_of_valid hv
  rw [domain_name, if_neg hne, decide_eq_true hd,
    show (!true) = false from rfl, if_neg (by simp), hst, rootDomainBranch,
    hv, decide_eq_true hd, show ((!true) || !true) = false from rfl,
    if_neg (by simp), hw, if_neg (by simp)]
  refine ⟨fun hc => ?_, fun hc hb => ?_, fun m m' => DomainError.noConfusion⟩
  · rw [if_pos hc]
    exact ⟨_, rfl⟩
  · rw [if_neg (by simp [hc]), if_neg hb]
    exact ⟨_, rfl⟩

/-- C3 witness: `foo.org` gets `RegistrationClosed` under the closed
policy and succeeds under the open policy. -/
theorem C3_witness :
    (∃ m, domain_name "foo.org".data cfgClosed =
      .error (.registrationClosed m)) ∧
    (∃ r, domain_name "foo.org".data cfgOpen = .ok r) :=
  ⟨(C3_fqdn_registration "foo.org".data cfgClosed (by decide) (by decide)
      (by decide)).1 rfl,
   (C3_fqdn_registration "foo.org".data cfgOpen (by decide) (by decide)
      (by decide)).2.1 rfl (by decide)⟩

/-- C4 counterexample: `123` has exactly `minSubdomainLength` characters,
all from the valid label character set, yet the call fails — the
subdomain branch first requires `is_valid_hostname`, which rejects
all-digit strings as IP-like. -/
theorem C4_counterexample :
    ("123".data).length = cfgOpen.minSubdomainLength ∧
    ("123".data).all (labelClass true) = true ∧
    domain_name "123".data cfgOpen =
      .error (.invalidInput "123 is not a valid sub-domain name.".data) :=
  ⟨by decide, by decide, rfl⟩

/-- C4 (amended): in the subdomain branch, for labels that pass the
hostname syntax check, a label shorter than `minSubdomainLength` fails
with `InvalidInput` whose message states the configured minimum, and a
non-blacklisted label of exactly `minSubdomainLength` characters
succeeds with the subdomain-shape result.  (A label that fails the
syntax check — for example an all-digit one — fails with the syntax
error message instead.) -/
theorem C4_min_length (s : Str) (cfg : PolicyConfig)
    (hnd : '.' ∉ s) (hv : is_valid_hostname s = true) :
    (s.length < cfg.minSubdomainLength →
      domain_name s cfg = .error (.invalidInput
        ("The subdomain must be at least ".data ++
         natStr cfg.minSubdomainLength ++ " characters long.".data)) ∧
      containsSub
        ("The subdomain must be at least ".data ++
         natStr cfg.minSubdomainLength ++ " characters long.".data)
        (natStr cfg.minSubdomainLength)) ∧
    (s.length = cfg.minSubdomainLength → s ∉ cfg.domainBlacklist →
      domain_name s cfg =
        .ok ⟨some (pyLower s), pyLower cfg.subdomainHost⟩) := by
  have hne : s ≠ [] := hostname_ne_nil hv
  have hst : stripTrailingDot s = s := stripTrailingDot_of_not_mem hnd
  rw [domain_name, if_neg hne, decide_eq_false hnd,
    show (!false) = true from rfl, if_pos rfl, hst, subdomainBranch, hv,
    show (!true) = false from rfl, if_neg (by simp)]
  refine ⟨fun hlt => ⟨?_, ?_⟩, fun heq hb => ?_⟩
  · rw [if_pos hlt]
  · exact ⟨"The subdomain must be at least ".data,
      " characters long.".data, rfl⟩
  · rw [if_neg (by omega), if_neg hb]

/-- C4 witness: with minimum 3, `ab` fails with the message stating 3 and
`abc` succeeds. -/
theorem C4_witness :
    (domain_name "ab".data cfgOpen = .error (.invalidInput
      "The subdomain must be at least 3 characters long.".data)) ∧
    domain_name "abc".data cfgOpen =
      .ok { label := some "abc".data, zone := "example.com".data } :=
  ⟨((C4_min_length "ab".data cfgOpen (by decide) (by decide)).1
      (by decide)).1,
   (C4_min_length "abc".data cfgOpen (by decide) (by decide)).2
      (by decide) (by decide)⟩

/-- C5 counterexample: `"ab\n"` contains a character outside
`[A-Za-z0-9_-]`, so the spec predicate rejects it, yet `is_valid_label`
accepts it — Python's `$` matches before a trailing newline. -/
theorem C5_counterexample :
    is_valid_label "ab\n".data false = true ∧
    specLabelOk "ab\n".data false = false :=
  ⟨by decide, by decide⟩

/-- C5 (amended): `is_valid_label` returns true iff the string is 1–63
characters from `[A-Za-z0-9_-]` (underscore excluded in hostname mode)
not starting or ending with a hyphen — or is such a string followed by a
single trailing newline, which Python's `$` tolerates. -/
theorem C5_label_validity (s : Str) (h : Bool) :
    is_valid_label s h =
      (specLabelOk s h ||
        (s.getLast? == some '\n' && specLabelOk s.dropLast h)) :=
  is_valid_label_eq h s

/-- C6 counterexample: `"123\n"` is not made of digits and dots only, and
its single dot-separated segment passes `is_valid_label` in hostname
mode, so the spec predicate accepts it; yet `is_valid_hostname` rejects
it, because the IP-like pattern `[\d.]+$` also matches up to a trailing
newline. -/
theorem C6_counterexample :
    is_valid_hostname "123\n".data = false ∧
    specHostnameOk "123\n".data = true :=
  ⟨by decide, by decide⟩

/-- C6 (amended): `is_valid_hostname` is false beyond 255 characters,
false when the string — up to an optional trailing newline — consists
only of digits and dots, and otherwise true iff every dot-separated
segment passes `is_valid_label` in hostname mode; in particular
`192.168.1.1` is rejected and `my-site.example.com` accepted. -/
theorem C6_hostname_validity :
    (∀ s, is_valid_hostname s =
      (if 255 < s.length then false
       else if pyIpLike s then false
       else (splitOn '.' s).all (fun x => is_valid_label x true))) ∧
    is_valid_hostname "192.168.1.1".data = false ∧
    is_valid_hostname "my-site.example.com".data = true := by
  refine ⟨fun s => ?_, by decide, by decide⟩
  rw [is_valid_hostname, ipLikePat_eq]

/-- C7 counterexample: the dot in the source's pattern is unescaped, so
`abcdefghij123456xonion` — which does not end in the literal `.onion` —
is accepted by `is_onion_address` while the spec predicate rejects it. -/
theorem C7_counterexample :
    is_onion_address "abcdefghij123456xonion".data = true ∧
    specOnionOk "abcdefghij123456xonion".data = false :=
  ⟨by decide, by decide⟩

/-- C7 (amended): `is_onion_address` returns true iff the string is 16
lowercase alphanumerics, then any single non-newline character, then the
literal `onion` — optionally followed by one trailing newline; uppercase
input and 56-character v3-style addresses are still rejected, and the
function returns a boolean. -/
theorem C7_onion_validity :
    (∀ s, is_onion_address s =
      (onionLooseOk s ||
        (s.getLast? == some '\n' && onionLooseOk s.dropLast))) ∧
    is_onion_address "abcdefghij123456.onion".data = true ∧
    is_onion_address "ABCDEFGHIJ123456.onion".data = false ∧
    is_onion_address
      ("aaaaaaaaaaaaaaaaaaaaaaaaaaaaaaaaaaaaaaaaaaaaaaaaaaaaaaaa.onion".data) =
      false :=
  ⟨is_onion_address_eq, by decide, by decide, by decide⟩

/-- C8: `ip_address` fails with `InvalidInput` on unparsable strings,
fails with the only-public message on private addresses, returns the
parsed address otherwise; `10.0.0.5`, `127.0.0.1` and `fe80::1` are
rejected as private, `8.8.8.8` is accepted. -/
theorem C8_ip_address_validation :
    (∀ s : Str, py_ip_address s = none →
      ∃ m, ip_address s = .error (.invalidInput m)) ∧
    (∀ s ip, py_ip_address s = some ip → is_private ip = true →
      ip_address s = .error (.invalidInput
        "Only public IP addresses are valid".data)) ∧
    (∀ s ip, py_ip_address s = some ip → is_private ip = false →
      ip_address s = .ok ip) ∧
    ip_address "10.0.0.5".data = .error (.invalidInput
      "Only public IP addresses are valid".data) ∧
    ip_address "127.0.0.1".data = .error (.invalidInput
      "Only public IP addresses are valid".data) ∧
    ip_address "fe80::1".data = .error (.invalidInput
      "Only public IP addresses are valid".data) ∧
    ip_address "8.8.8.8".data = .ok (.v4 (ipv4Num 8 8 8 8)) := by
  refine ⟨fun s hp => ?_, fun s ip hp hpriv => ?_, fun s ip hp hpriv => ?_,
    rfl, rfl, rfl, rfl⟩
  · rw [ip_address, hp]
    exact ⟨_, rfl⟩
  · rw [ip_address, hp]
    simp [hpriv]
  · rw [ip_address, hp]
    simp [hpriv]

/-- C8 witness: a non-address string yields `InvalidInput`; the private
and public examples are settled by applying the theorem. -/
theorem C8_witness :
    (∃ m, ip_address "not-an-ip".data = .error (.invalidInput m)) ∧
    ip_address "fe80::1".data = .error (.invalidInput
      "Only public IP addresses are valid".data) ∧
    ip_address "8.8.8.8".data = .ok (.v4 (ipv4Num 8 8 8 8)) :=
  ⟨C8_ip_address_validation.1 "not-an-ip".data rfl,
   C8_ip_address_validation.2.1 "fe80::1".data (.v6 (65152 * 2 ^ 112 + 1))
     (by decide) (by decide),
   C8_ip_address_validation.2.2.1 "8.8.8.8".data (.v4 (ipv4Num 8 8 8 8))
     (by decide) (by decide)⟩

/-- C9: `allowed_dns_record_type` trims and upper-cases its input,
returns the normalized string when it is an allowed type, and otherwise
fails with `InvalidInput` enumerating the allowed set comma-joined; in
particular `" a "` normalizes to `A` and succeeds, while `FOO` fails
listing `A, AAAA, CNAME`. -/
theorem C9_record_type :
    (∀ rt cfg,
      (pyUpper (pyStrip rt) ∈ cfg.allowedDnsRecordTypes →
        allowed_dns_record_type rt cfg = .ok (pyUpper (pyStrip rt))) ∧
      (pyUpper (pyStrip rt) ∉ cfg.allowedDnsRecordTypes →
        allowed_dns_record_type rt cfg = .error (.invalidInput
          (pyUpper (pyStrip rt) ++
           " is not an allowed DNS record type. Only types ".data ++
           joinComma cfg.allowedDnsRecordTypes ++ " are allowed".data)))) ∧
    allowed_dns_record_type " a ".data cfgOpen = .ok "A".data ∧
    allowed_dns_record_type "FOO".data cfgOpen = .error (.invalidInput
      "FOO is not an allowed DNS record type. Only types A, AAAA, CNAME are allowed".data) := by
  refine ⟨fun rt cfg => ⟨fun hm => ?_, fun hm => ?_⟩, rfl, rfl⟩
  · rw [allowed_dns_record_type, if_pos hm]
  · rw [allowed_dns_record_type, if_neg hm]

/-- C9 witness: the membership and non-membership cases applied at the
spec's own examples. -/
theorem C9_witness :
    allowed_dns_record_type " a ".data cfgOpen = .ok "A".data ∧
    ∃ m, allowed_dns_record_type "txt".data cfgOpen =
      .error (.invalidInput m) :=
  ⟨(C9_record_type.1 " a ".data cfgOpen).1 (by decide),
   ⟨_, (C9_record_type.1 "txt".data cfgOpen).2 (by decide)⟩⟩

end Oniongate

namespace Oniongate

example : ("abc".data) = ['a', 'b', 'c'] := rfl
example : is_valid_label "my-label".data false = true := by decide
example : is_valid_label "-a".data false = false := by decide
example : is_valid_label "ab\n".data false = true := by decide
example : is_valid_hostname "my-site.example.com".data = true := by decide
example : is_valid_hostname "192.168.1.1".data = false := by decide
example : is_valid_hostname "123\n".data = false := by decide
example : is_onion_address "abcdefghij123456.onion".data = true := by decide
example : is_onion_address "abcdefghij123456xonion".data = true := by decide
example : is_onion_address "ABCDEFGHIJ123456.onion".data = false := by decide
example : is_onion_address "abcdefghij123456.onion\n".data = true := by decide

example : domain_name "myapp".data cfgOpen =
    .ok { label := some "myapp".data, zone := "example.com".data } := rfl
example : domain_name "WWW".data cfgOpen =
    .ok { label := some "www".data, zone := "example.com".data } := rfl
example : ∃ m, domain_name "www".data cfgOpen = .error (.invalidInput m) :=
  ⟨_, rfl⟩
example : domain_name "foo.org".data cfgOpen =
    .ok { label := none, zone := "foo.org".data } := rfl
example : domain_name "Foo.ORG.".data cfgOpen =
    .ok { label := none, zone := "foo.org".data } := rfl
example : ∃ m, domain_name "123".data cfgOpen = .error (.invalidInput m) :=
  ⟨_, rfl⟩
example : py_ip_address "8.8.8.8".data = some (.v4 (ipv4Num 8 8 8 8)) := rfl
example : ip_address "8.8.8.8".data = .ok (.v4 (ipv4Num 8 8 8 8)) := rfl
example : ip_address "10.0.0.5".data =
    .error (.invalidInput "Only public IP addresses are valid".data) := rfl
example : ip_address "127.0.0.1".data =
    .error (.invalidInput "Only public IP addresses are valid".data) := rfl
example : ip_address "fe80::1".data =
    .error (.invalidInput "Only public IP addresses are valid".data) := rfl
example : py_ip_address "fe80::1".data = some (.v6 (65152 * 2 ^ 112 + 1)) := by decide
example : py_ip_address "::1".data = some (.v6 1) := by decide
example : py_ip_address "::".data = some (.v6 0) := by decide
example : py_ip_address "1:2:3:4:5:6:7:8".data ≠ none := by decide
example : py_ip_address "::ffff:192.168.1.1".data ≠ none := by decide
example : py_ip_address "1::2::3".data = none := by decide
example : py_ip_address ":1:2:3:4:5:6:7".data = none := by decide
example : py_ip_address "010.0.0.1".data = none := by decide
example : py_ip_address "256.1.1.1".data = none := by decide
example : py_ip_address "2001:db8::1".data ≠ none := by decide
example : is_private (.v6 (8193 * 2 ^ 112 + 3512 * 2 ^ 96 + 1)) = true := by decide
example : allowed_dns_record_type " a ".data cfgOpen = .ok "A".data := rfl
example : allowed_dns_record_type "FOO".data cfgOpen =
    .error (.invalidInput
      "FOO is not an allowed DNS record type. Only types A, AAAA, CNAME are allowed".data) := rfl

end Oniongate
